import Mathlib

/-!
Shallow embedding of the two tutorial notebooks of `nickeldan/python_tutorials`:
an exception-handling notebook (reciprocal examples, chained exceptions) and a
decorators notebook (`timer`, `log_result`, `describe_as`, the `Robot`
command-registry class).  Python functions become Lean functions; side effects
(printing, reading the wall clock, invoking a wrapped callable) are threaded
through an explicit state `St`; fallible code returns `Except PyExc`.
-/

namespace PyTut

/-- Python values that appear in the notebook examples. -/
inductive Value : Type where
  | vnone : Value
  | vint : Int → Value
  | vstr : String → Value
  | vbool : Bool → Value
  deriving DecidableEq, Repr

/-- Modelled from the spec: the text Python's `str` produces for a value,
used by `print(f'... {value} ...')`. -/
def Value.pyStr : Value → String
  | Value.vnone => "None"
  | Value.vint n => toString n
  | Value.vstr s => s
  | Value.vbool b => if b then "True" else "False"

/-- The positional (`*args`) and keyword (`**kwargs`) arguments of one call. -/
structure Args where
  pos : List Value
  kw : List (String × Value)
  deriving DecidableEq, Repr

/-- The exception classes that occur in the notebooks. -/
inductive ExcType : Type where
  | valueError
  | zeroDivisionError
  | indexError
  | nameError
  | eofError
  | superConfusingError
  | invalidCommand
  | systemExit
  deriving DecidableEq, Repr

/-- A Python exception object: its class, its message, its explicit chained
cause (`__cause__`, set by `raise ... from e`), its implicit context
(`__context__`, set when raised inside an `except` block), and the
`__suppress_context__` flag (set by any `raise ... from ...`). -/
inductive PyExc : Type where
  | mk (ty : ExcType) (msg : String) (cause : Option PyExc)
      (context : Option PyExc) (suppressContext : Bool)

def PyExc.ty : PyExc → ExcType
  | PyExc.mk t _ _ _ _ => t

def PyExc.msg : PyExc → String
  | PyExc.mk _ m _ _ _ => m

def PyExc.cause : PyExc → Option PyExc
  | PyExc.mk _ _ c _ _ => c

def PyExc.context : PyExc → Option PyExc
  | PyExc.mk _ _ _ c _ => c

def PyExc.suppressContext : PyExc → Bool
  | PyExc.mk _ _ _ _ b => b

/-- An exception raised outside any `except` block: no cause, no context. -/
def raiseExc (ty : ExcType) (msg : String) : PyExc :=
  PyExc.mk ty msg none none false

/-- The observable effect state of a notebook cell: the lines printed so far,
the upcoming readings of `time.time()` (an abstract integer clock), and a log
of the calls made to wrapped callables (callee name together with the
arguments), which lets "calls `func` exactly once with the same arguments" be
stated. -/
structure St where
  out : List String
  clock : List Int
  callLog : List (String × Args)
  deriving DecidableEq, Repr

/-- The effect of `print(line)`. -/
def printLn (s : St) (line : String) : St :=
  { s with out := s.out ++ [line] }

/-- The effect of `time.time()`: the next clock reading (0 once exhausted). -/
def timeNow (s : St) : Int × St :=
  match s.clock with
  | [] => (0, s)
  | t :: rest => (t, { s with clock := rest })

/-- Record in the call log that a callable named `name` was called with
`args`. -/
def logCall (s : St) (name : String) (args : Args) : St :=
  { s with callLog := s.callLog ++ [(name, args)] }

/-- A Python callable as the decorators notebook manipulates it: its
`__name__` and its behaviour, which may print, read the clock, invoke other
callables, raise, or return a value. -/
structure Callable where
  name : String
  call : Args → St → Except PyExc Value × St

/-- The semantics of the call expression `func(*args, **kwargs)`: the call is
recorded in the log and then `func`'s body runs. -/
def invoke (func : Callable) (args : Args) (s : St) : Except PyExc Value × St :=
  func.call args (logCall s func.name args)

/-- The body of `timer`'s inner `new_func`: note `time.time()`, call `func`
with the same arguments, compute the duration, print the report, return
`func`'s value.  An exception in `func` propagates before the second clock
reading and the report. -/
def timer_new_func (func : Callable) (args : Args) (s : St) :
    Except PyExc Value × St :=
  let p := timeNow s
  match invoke func args p.2 with
  | (Except.error e, s2) => (Except.error e, s2)
  | (Except.ok value, s2) =>
    let q := timeNow s2
    let duration := q.1 - p.1
    (Except.ok value,
      printLn q.2 ("Running " ++ func.name ++ " took " ++ toString duration
        ++ " seconds."))

/-- The final (`functools.wraps`-using) definition of `timer` from
`decorators.ipynb`; `functools.wraps(func)` copies `func.__name__` onto the
returned `new_func`. -/
def timer (func : Callable) : Callable where
  name := func.name
  call := timer_new_func func

/-- The body of `log_result`'s inner `new_func`: call `func`, print the
returned value, return it. -/
def log_result_new_func (func : Callable) (args : Args) (s : St) :
    Except PyExc Value × St :=
  match invoke func args s with
  | (Except.error e, s1) => (Except.error e, s1)
  | (Except.ok value, s1) =>
    (Except.ok value,
      printLn s1 (func.name ++ " returned " ++ value.pyStr ++ "."))

/-- The final (`functools.wraps`-using) definition of `log_result` from
`decorators.ipynb`; `functools.wraps(func)` copies `func.__name__`. -/
def log_result (func : Callable) : Callable where
  name := func.name
  call := log_result_new_func func

/-- The indexing expression `s[i]` on a Python string: the character, or
`IndexError` when `i` is out of range. -/
def strIndex (s : String) (i : Nat) : Except PyExc Char :=
  match s.data.get? i with
  | some c => Except.ok c
  | none => Except.error (raiseExc ExcType.indexError "string index out of range")

/-- The body of `describe_as`'s inner `new_func`: print the templated
sentence, then delegate to `func` with the same arguments and return its
result. -/
def describe_as_new_func (article adjective : String) (func : Callable)
    (args : Args) (s : St) : Except PyExc Value × St :=
  invoke func args
    (printLn s (func.name ++ " is " ++ article ++ " " ++ adjective
      ++ " function."))

/-- The decorator factory `describe_as` from `decorators.ipynb`.  The factory
body evaluates `adjective[0]` eagerly to choose the article, so it raises
`IndexError` on the empty string before any decorator exists; otherwise it
returns the decorator whose `new_func` prints the sentence and then delegates
to `func`. -/
def describe_as (adjective : String) : Except PyExc (Callable → Callable) :=
  match strIndex adjective 0 with
  | Except.error e => Except.error e
  | Except.ok c =>
    let article :=
      if c = 'a' ∨ c = 'e' ∨ c = 'i' ∨ c = 'o' ∨ c = 'u' then "an" else "a"
    Except.ok (fun func =>
      { name := func.name
        call := describe_as_new_func article adjective func })

/-- Modelled from the spec: the value of a run of decimal digits, as Python's
`int` builtin computes it. -/
def digitsToNat (ds : List Char) : Nat :=
  ds.foldl (fun acc c => acc * 10 + (c.toNat - '0'.toNat)) 0

/-- Modelled from the spec: the `int(...)` builtin applied to a line of text
(surrounding spaces stripped, an optional sign, then decimal digits), raising
`ValueError` on anything else. -/
def int_of_string (str : String) : Except PyExc Int :=
  let cs := ((str.data.dropWhile (· = ' ')).reverse.dropWhile (· = ' ')).reverse
  let p : Int × List Char :=
    match cs with
    | '-' :: rest => (-1, rest)
    | '+' :: rest => (1, rest)
    | _ => (1, cs)
  if p.2 ≠ [] ∧ p.2.all (·.isDigit) then
    Except.ok (p.1 * (digitsToNat p.2 : Int))
  else
    Except.error (raiseExc ExcType.valueError
      ("invalid literal for int with base 10: " ++ str))

/-- True division `a / b` of the exception notebook's `print(1/num)`: a
rational result, or `ZeroDivisionError` when the divisor is zero. -/
def pyDiv (a b : Int) : Except PyExc ℚ :=
  if b = 0 then Except.error (raiseExc ExcType.zeroDivisionError "division by zero")
  else Except.ok ((a : ℚ) / (b : ℚ))

/-- The `good_reciprocal` function of the exception notebook.  `inputRes`
models the result of the `input(...)` call (the line read, or the exception
that call raised).  The first `try` block wraps only the parse and catches
only `ValueError`, printing and returning early; the second wraps only the
division and catches only `ZeroDivisionError`.  Any other exception
propagates. -/
def good_reciprocal (inputRes : Except PyExc String) (s : St) :
    Except PyExc Value × St :=
  match (match inputRes with
         | Except.error e => Except.error e
         | Except.ok line => int_of_string line : Except PyExc Int) with
  | Except.error e =>
    if e.ty = ExcType.valueError then (Except.ok Value.vnone, printLn s "Invalid input!")
    else (Except.error e, s)
  | Except.ok num =>
    match pyDiv 1 num with
    | Except.error e =>
      if e.ty = ExcType.zeroDivisionError then
        (Except.ok Value.vnone, printLn s "Cannot divide by 0!")
      else (Except.error e, s)
    | Except.ok q => (Except.ok Value.vnone, printLn s (toString q))

/-- The `SuperConfusingError` that `imported_function` raises at 3. -/
def sce3 : PyExc :=
  raiseExc ExcType.superConfusingError
    ("According to the laws set down by the Padishah Emperor Shaddam IV, "
      ++ "the number 3 is unacceptable as it attracts sand worms.")

/-- The `imported_function` of the exception notebook: raises
`SuperConfusingError` when `num == 3`, otherwise returns
`num * (num+1) // 2` (Python floor division). -/
def imported_function (num : Int) : Except PyExc Int :=
  if num = 3 then Except.error sce3
  else Except.ok (Int.fdiv (num * (num + 1)) 2)

/-- The `less_confusing_user_function` of the exception notebook: parses the
input line, calls `imported_function`, and on `SuperConfusingError` `e` raises
`ValueError('3 is no good.') from e` — cause `e`, context `e`, context
suppressed (Python sets `__suppress_context__` on any `raise ... from`). -/
def less_confusing_user_function (inputLine : String) : Except PyExc Int :=
  match int_of_string inputLine with
  | Except.error e => Except.error e
  | Except.ok num =>
    match imported_function num with
    | Except.ok v => Except.ok v
    | Except.error e =>
      if e.ty = ExcType.superConfusingError then
        Except.error (PyExc.mk ExcType.valueError "3 is no good." (some e) (some e) true)
      else Except.error e

/-- The `clean_user_function` of the exception notebook: like
`less_confusing_user_function` but raising `ValueError('3 is no good.') from
None` — no cause, context still recorded by the runtime, context
suppressed. -/
def clean_user_function (inputLine : String) : Except PyExc Int :=
  match int_of_string inputLine with
  | Except.error e => Except.error e
  | Except.ok num =>
    match imported_function num with
    | Except.ok v => Except.ok v
    | Except.error e =>
      if e.ty = ExcType.superConfusingError then
        Except.error (PyExc.mk ExcType.valueError "3 is no good." none (some e) true)
      else Except.error e

/-- Lookup in a Python dict kept as an insertion-ordered association list:
`d.get(k)`. -/
def dictGet (d : List (String × Callable)) (k : String) : Option Callable :=
  match d with
  | [] => none
  | (k', v) :: rest => if k' = k then some v else dictGet rest k

/-- Assignment `d[k] = v` on a Python dict: overwrite in place when the key
exists, otherwise append (insertion order preserved). -/
def dictSet (d : List (String × Callable)) (k : String) (v : Callable) :
    List (String × Callable) :=
  match d with
  | [] => [(k, v)]
  | (k', v') :: rest =>
    if k' = k then (k, v) :: rest else (k', v') :: dictSet rest k v

/-- The `Robot` class of the decorators notebook: just its `commands` dict. -/
structure Robot where
  commands : List (String × Callable)

/-- The attribute names `Robot` defines explicitly, for which Python never
calls `__getattr__`. -/
def robotAttrs : List String :=
  ["commands", "register_command", "list_commands"]

/-- `Robot.__getattr__`: look the attribute up in `self.commands`, raising
`InvalidCommand(attr)` when it is absent. -/
def Robot.getattr (r : Robot) (attr : String) : Except PyExc Callable :=
  match dictGet r.commands attr with
  | none => Except.error (raiseExc ExcType.invalidCommand attr)
  | some command => Except.ok command

/-- `Robot.register_command`: store `func` under `func.__name__` in
`self.commands` and return `func` itself. -/
def Robot.register_command (r : Robot) (func : Callable) : Callable × Robot :=
  (func, { commands := dictSet r.commands func.name func })

/-- `Robot.list_commands`: `list(self.commands)`, the keys in insertion
order. -/
def Robot.list_commands (r : Robot) : List String :=
  r.commands.map Prod.fst

/-- The `returns_five_slowly` example of the decorators notebook (the
`time.sleep(2)` has no observable effect in this model): always returns 5. -/
def returns_five_slowly : Callable where
  name := "returns_five_slowly"
  call := fun _ s => (Except.ok (Value.vint 5), s)

/-- The `does_nothing` example of the decorators notebook: returns `None`. -/
def does_nothing : Callable where
  name := "does_nothing"
  call := fun _ s => (Except.ok Value.vnone, s)

/-- The `sweep_the_floor` command of the decorators notebook. -/
def sweep_the_floor : Callable where
  name := "sweep_the_floor"
  call := fun _ s => (Except.ok Value.vnone, printLn s "Sweeping the floor")

/-- Modelled from the spec: an arbitrary wrapped callable that raises (the
spec says wrapped calls may raise and the wrapper lets exceptions propagate);
used as a concrete input for the propagation theorems. -/
def always_raises : Callable where
  name := "always_raises"
  call := fun _ s => (Except.error (raiseExc ExcType.valueError "boom"), s)

/-- Reading the clock leaves the call log unchanged. -/
theorem timeNow_callLog (s : St) : (timeNow s).2.callLog = s.callLog := by
  rcases s with ⟨o, clock, l⟩
  cases clock <;> rfl

/-- Printing leaves the call log unchanged. -/
theorem printLn_callLog (s : St) (line : String) :
    (printLn s line).callLog = s.callLog := rfl

/-- Recording a call appends exactly one entry to the call log. -/
theorem logCall_callLog (s : St) (n : String) (a : Args) :
    (logCall s n a).callLog = s.callLog ++ [(n, a)] := rfl

/-- Claim C5: `imported_function` raises `SuperConfusingError` exactly when
its argument is 3 and otherwise returns `num * (num+1) // 2`; when it raises,
`less_confusing_user_function` catches it and raises
`ValueError('3 is no good.')` whose chained cause is that very
`SuperConfusingError` object. -/
theorem less_confusing_chains_cause (line : String)
    (h : int_of_string line = Except.ok 3) :
    imported_function 3 = Except.error sce3 ∧
    sce3.ty = ExcType.superConfusingError ∧
    (∀ num : Int, num ≠ 3 →
      imported_function num = Except.ok (Int.fdiv (num * (num + 1)) 2)) ∧
    ∃ e : PyExc, less_confusing_user_function line = Except.error e ∧
      e.ty = ExcType.valueError ∧ e.msg = "3 is no good." ∧
      e.cause = some sce3 := by
  refine ⟨rfl, rfl, ?_, ?_⟩
  · intro num hnum
    simp [imported_function, hnum]
  · refine ⟨PyExc.mk ExcType.valueError "3 is no good." (some sce3) (some sce3) true,
      ?_, rfl, rfl, rfl⟩
    unfold less_confusing_user_function
    rw [h]
    rfl

/-- Witness for C5 at the concrete input line "3". -/
theorem less_confusing_chains_cause_witness :
    int_of_string "3" = Except.ok 3 ∧
    (imported_function 3 = Except.error sce3 ∧
      sce3.ty = ExcType.superConfusingError ∧
      (∀ num : Int, num ≠ 3 →
        imported_function num = Except.ok (Int.fdiv (num * (num + 1)) 2)) ∧
      ∃ e : PyExc, less_confusing_user_function "3" = Except.error e ∧
        e.ty = ExcType.valueError ∧ e.msg = "3 is no good." ∧
        e.cause = some sce3) :=
  ⟨rfl, less_confusing_chains_cause "3" rfl⟩

/-- Claim C6: when `imported_function` raises `SuperConfusingError`,
`clean_user_function` raises `ValueError('3 is no good.') from None`: the
`ValueError` the caller receives has no chained cause and its context is
suppressed. -/
theorem clean_user_suppresses_cause (line : String)
    (h : int_of_string line = Except.ok 3) :
    ∃ e : PyExc, clean_user_function line = Except.error e ∧
      e.ty = ExcType.valueError ∧ e.msg = "3 is no good." ∧
      e.cause = none ∧ e.suppressContext = true := by
  refine ⟨PyExc.mk ExcType.valueError "3 is no good." none (some sce3) true,
    ?_, rfl, rfl, rfl, rfl⟩
  unfold clean_user_function
  rw [h]
  rfl

/-- Witness for C6 at the concrete input line "3". -/
theorem clean_user_suppresses_cause_witness :
    int_of_string "3" = Except.ok 3 ∧
    ∃ e : PyExc, clean_user_function "3" = Except.error e ∧
      e.ty = ExcType.valueError ∧ e.msg = "3 is no good." ∧
      e.cause = none ∧ e.suppressContext = true :=
  ⟨rfl, clean_user_suppresses_cause "3" rfl⟩

/-- Claim C9: `describe_as ""` raises `IndexError` before any decorator is
returned (the factory evaluates `adjective[0]` eagerly), and for every
non-empty adjective the factory itself returns a decorator without
raising. -/
theorem describe_as_empty_raises :
    describe_as "" =
      Except.error (raiseExc ExcType.indexError "string index out of range") ∧
    ∀ adj : String, adj ≠ "" → ∃ d, describe_as adj = Except.ok d := by
  refine ⟨rfl, ?_⟩
  intro adj h
  rcases adj with ⟨data⟩
  cases data with
  | nil => exact absurd rfl h
  | cons c cs => exact ⟨_, rfl⟩

/-- Witness for C9: "annoying" is non-empty and yields a decorator. -/
theorem describe_as_empty_raises_witness :
    ∃ d, describe_as "annoying" = Except.ok d :=
  describe_as_empty_raises.2 "annoying" (by decide)

/-- After `d[k] = v`, looking up `k` finds `v`. -/
theorem dictGet_dictSet_self (d : List (String × Callable)) (k : String)
    (v : Callable) : dictGet (dictSet d k v) k = some v := by
  induction d with
  | nil => simp [dictSet, dictGet]
  | cons p rest ih =>
    obtain ⟨k', v'⟩ := p
    by_cases h : k' = k
    · subst h
      simp [dictSet, dictGet]
    · simp [dictSet, dictGet, h, ih]

/-- After `d[k] = v`, looking up any other key is unchanged. -/
theorem dictGet_dictSet_ne (d : List (String × Callable)) (k k' : String)
    (v : Callable) (h : k' ≠ k) :
    dictGet (dictSet d k v) k' = dictGet d k' := by
  induction d with
  | nil => simp [dictSet, dictGet, Ne.symm h]
  | cons p rest ih =>
    obtain ⟨a, b⟩ := p
    by_cases ha : a = k
    · subst ha
      simp [dictSet, dictGet, Ne.symm h]
    · simp [dictSet, dictGet, ha, ih]

/-- After `d[k] = v`, `k` is among the keys. -/
theorem mem_keys_dictSet (d : List (String × Callable)) (k : String)
    (v : Callable) : k ∈ (dictSet d k v).map Prod.fst := by
  induction d with
  | nil => simp [dictSet]
  | cons p rest ih =>
    obtain ⟨a, b⟩ := p
    by_cases ha : a = k
    · subst ha
      simp [dictSet]
    · simp [dictSet, ha]
      right
      simpa using ih

/-- Claim C7: for every attribute name that is not explicitly defined on
`Robot` (so that Python routes access through `__getattr__`), access returns
the registered command of that name when the registry has one, raises
`InvalidCommand(n)` otherwise, and in particular recovers any function just
registered under its own name via `register_command`. -/
theorem robot_getattr_spec (r : Robot) (n : String) (hn : n ∉ robotAttrs) :
    (∀ f, dictGet r.commands n = some f → r.getattr n = Except.ok f) ∧
    (dictGet r.commands n = none →
      r.getattr n = Except.error (raiseExc ExcType.invalidCommand n)) ∧
    (∀ f : Callable, f.name = n →
      ((r.register_command f).2).getattr n = Except.ok f) := by
  refine ⟨?_, ?_, ?_⟩
  · intro f h
    unfold Robot.getattr
    rw [h]
  · intro h
    unfold Robot.getattr
    rw [h]
  · intro f hf
    subst hf
    unfold Robot.getattr Robot.register_command
    rw [dictGet_dictSet_self]

/-- Witness for C7 on a fresh robot and the command name `sweep_the_floor`. -/
theorem robot_getattr_spec_witness :
    (Robot.mk []).getattr "sweep_the_floor" =
      Except.error (raiseExc ExcType.invalidCommand "sweep_the_floor") ∧
    (((Robot.mk []).register_command sweep_the_floor).2).getattr
      "sweep_the_floor" = Except.ok sweep_the_floor :=
  ⟨(robot_getattr_spec (Robot.mk []) "sweep_the_floor" (by decide)).2.1 rfl,
   (robot_getattr_spec (Robot.mk []) "sweep_the_floor" (by decide)).2.2
     sweep_the_floor rfl⟩

/-- Claim C10: `register_command` returns its argument itself, and its only
effect on the robot is to add the entry mapping `f.__name__` to `f` into the
command registry (lookups at other keys are unchanged), after which
`list_commands` reports the name. -/
theorem register_command_identity (r : Robot) (f : Callable) :
    (r.register_command f).1 = f ∧
    dictGet (r.register_command f).2.commands f.name = some f ∧
    (∀ k, k ≠ f.name →
      dictGet (r.register_command f).2.commands k = dictGet r.commands k) ∧
    f.name ∈ ((r.register_command f).2).list_commands := by
  refine ⟨rfl, ?_, ?_, ?_⟩
  · exact dictGet_dictSet_self r.commands f.name f
  · intro k hk
    exact dictGet_dictSet_ne r.commands f.name k f hk
  · exact mem_keys_dictSet r.commands f.name f

/-- Witness for C10: registering `sweep_the_floor` on a fresh robot. -/
theorem register_command_identity_witness :
    ((Robot.mk []).register_command sweep_the_floor).1 = sweep_the_floor ∧
    dictGet ((Robot.mk []).register_command sweep_the_floor).2.commands
      "sweep_the_floor" = some sweep_the_floor ∧
    dictGet ((Robot.mk []).register_command sweep_the_floor).2.commands
      "do_taxes" = dictGet (Robot.mk []).commands "do_taxes" ∧
    "sweep_the_floor" ∈
      (((Robot.mk []).register_command sweep_the_floor).2).list_commands := by
  obtain ⟨h1, h2, h3, h4⟩ :=
    register_command_identity (Robot.mk []) sweep_the_floor
  exact ⟨h1, h2, h3 "do_taxes" (by decide), h4⟩

/-- An error result of `int(...)` is always a `ValueError`. -/
theorem int_of_string_error_ty (line : String) (e : PyExc)
    (h : int_of_string line = Except.error e) : e.ty = ExcType.valueError := by
  simp only [int_of_string] at h
  split_ifs at h
  cases h
  rfl

/-- Claim C1: the callable returned by `timer(func)`, called with any
positional and keyword arguments, calls `func` exactly once with those same
arguments (the call log grows by exactly the one entry for `func`) and
returns the value `func` returned, unchanged. -/
theorem timer_calls_once_passes_value (func : Callable) (args : Args) (s : St)
    (v : Value) (s' : St)
    (hcall : func.call args (logCall (timeNow s).2 func.name args) =
      (Except.ok v, s'))
    (hlog : s'.callLog = (logCall (timeNow s).2 func.name args).callLog) :
    ((timer func).call args s).1 = Except.ok v ∧
    ((timer func).call args s).2.callLog = s.callLog ++ [(func.name, args)] := by
  constructor
  · show (timer_new_func func args s).1 = Except.ok v
    simp only [timer_new_func, invoke]
    rw [hcall]
  · show (timer_new_func func args s).2.callLog =
      s.callLog ++ [(func.name, args)]
    simp only [timer_new_func, invoke]
    rw [hcall]
    simp [printLn, logCall, timeNow_callLog, hlog]

/-- Witness for C1: timing `returns_five_slowly` on empty arguments. -/
theorem timer_calls_once_passes_value_witness :
    ((timer returns_five_slowly).call (Args.mk [] []) (St.mk [] [] [])).1 =
      Except.ok (Value.vint 5) ∧
    ((timer returns_five_slowly).call (Args.mk [] [])
        (St.mk [] [] [])).2.callLog =
      [] ++ [("returns_five_slowly", Args.mk [] [])] :=
  timer_calls_once_passes_value returns_five_slowly (Args.mk [] [])
    (St.mk [] [] []) (Value.vint 5)
    (logCall (timeNow (St.mk [] [] [])).2 "returns_five_slowly"
      (Args.mk [] [])) rfl rfl

/-- Claim C2: when `func` raises, the wrapper returned by `timer` propagates
that same exception and the post-state is exactly the wrapped call's own
post-state: no duration report is printed and no substitute value is
returned. -/
theorem timer_propagates_exception (func : Callable) (args : Args) (s : St)
    (e : PyExc) (s' : St)
    (herr : func.call args (logCall (timeNow s).2 func.name args) =
      (Except.error e, s')) :
    (timer func).call args s = (Except.error e, s') := by
  show timer_new_func func args s = _
  simp only [timer_new_func, invoke]
  rw [herr]

/-- Witness for C2: timing a callable that raises `ValueError`. -/
theorem timer_propagates_exception_witness :
    (timer always_raises).call (Args.mk [] []) (St.mk [] [] []) =
      (Except.error (raiseExc ExcType.valueError "boom"),
        St.mk [] [] [("always_raises", Args.mk [] [])]) :=
  timer_propagates_exception always_raises (Args.mk [] []) (St.mk [] [] [])
    (raiseExc ExcType.valueError "boom")
    (St.mk [] [] [("always_raises", Args.mk [] [])]) rfl

/-- Claim C3: for every adjective (whose first character exists),
`describe_as adjective` yields a decorator whose wrapper first prints
the sentence naming the wrapped callable, with article "an" exactly when
the adjective starts with a vowel, and only then delegates to `func` with
the same arguments, returning its result. -/
theorem describe_as_prints_then_delegates (adj : String) (c : Char)
    (hc : adj.data.head? = some c) (func : Callable) (args : Args) (s : St) :
    ∃ dec, describe_as adj = Except.ok dec ∧
      (dec func).name = func.name ∧
      (dec func).call args s =
        invoke func args (printLn s (func.name ++ " is "
          ++ (if c = 'a' ∨ c = 'e' ∨ c = 'i' ∨ c = 'o' ∨ c = 'u'
              then "an" else "a")
          ++ " " ++ adj ++ " function.")) := by
  rcases adj with ⟨data⟩
  cases data with
  | nil => simp at hc
  | cons c0 cs =>
    have hcc : c0 = c := by simpa using hc
    subst hcc
    exact ⟨_, rfl, rfl, rfl⟩

/-- Witness for C3: decorating `does_nothing` with `describe_as "annoying"`. -/
theorem describe_as_prints_then_delegates_witness :
    ∃ dec, describe_as "annoying" = Except.ok dec ∧
      (dec does_nothing).name = does_nothing.name ∧
      (dec does_nothing).call (Args.mk [] []) (St.mk [] [] []) =
        invoke does_nothing (Args.mk [] [])
          (printLn (St.mk [] [] []) (does_nothing.name ++ " is "
            ++ (if 'a' = 'a' ∨ 'a' = 'e' ∨ 'a' = 'i' ∨ 'a' = 'o' ∨ 'a' = 'u'
                then "an" else "a")
            ++ " " ++ "annoying" ++ " function.")) :=
  describe_as_prints_then_delegates "annoying" 'a' rfl does_nothing
    (Args.mk [] []) (St.mk [] [] [])

/-- Claim C4: the `functools.wraps`-using `timer` and `log_result` copy the
wrapped callable's `__name__`, so under stacked decoration both printed
reports name the original function rather than the inner wrapper. -/
theorem wraps_copies_original_name (f : Callable) (v : Value)
    (hf : ∀ a st, f.call a st = (Except.ok v, st))
    (args : Args) (out0 : List String) (t1 t2 : Int) (rest : List Int)
    (log0 : List (String × Args)) :
    (timer f).name = f.name ∧
    (log_result f).name = f.name ∧
    (timer (log_result f)).name = f.name ∧
    ((timer (log_result f)).call args
        (St.mk out0 (t1 :: t2 :: rest) log0)).2.out =
      out0 ++ [f.name ++ " returned " ++ v.pyStr ++ ".",
        "Running " ++ f.name ++ " took " ++ toString (t2 - t1)
          ++ " seconds."] := by
  refine ⟨rfl, rfl, rfl, ?_⟩
  show (timer_new_func (log_result f) args
    (St.mk out0 (t1 :: t2 :: rest) log0)).2.out = _
  simp only [timer_new_func, invoke, log_result, log_result_new_func, hf]
  simp [printLn, timeNow, logCall]

/-- Witness for C4: stacking `timer` over `log_result` on
`returns_five_slowly` with clock readings 10 and 12. -/
theorem wraps_copies_original_name_witness :
    (timer returns_five_slowly).name = returns_five_slowly.name ∧
    (log_result returns_five_slowly).name = returns_five_slowly.name ∧
    (timer (log_result returns_five_slowly)).name = returns_five_slowly.name ∧
    ((timer (log_result returns_five_slowly)).call (Args.mk [] [])
        (St.mk [] (10 :: 12 :: []) [])).2.out =
      [] ++ [returns_five_slowly.name ++ " returned "
          ++ (Value.vint 5).pyStr ++ ".",
        "Running " ++ returns_five_slowly.name ++ " took "
          ++ toString ((12 : Int) - 10) ++ " seconds."] :=
  wraps_copies_original_name returns_five_slowly (Value.vint 5)
    (fun _ _ => rfl) (Args.mk [] []) [] 10 12 [] []

/-- Claim C8: `good_reciprocal` catches only the exceptions it anticipates,
each at the statement expected to raise it: a `ValueError` while parsing the
input line prints "Invalid input!" and returns without attempting the
division; a `ZeroDivisionError` from the division prints
"Cannot divide by 0!"; any other exception propagates uncaught. -/
theorem good_reciprocal_catches_specific (inputRes : Except PyExc String)
    (s : St) :
    (∀ line e, inputRes = Except.ok line →
      int_of_string line = Except.error e →
      good_reciprocal inputRes s =
        (Except.ok Value.vnone, printLn s "Invalid input!")) ∧
    (∀ line, inputRes = Except.ok line → int_of_string line = Except.ok 0 →
      good_reciprocal inputRes s =
        (Except.ok Value.vnone, printLn s "Cannot divide by 0!")) ∧
    (∀ e, inputRes = Except.error e → e.ty ≠ ExcType.valueError →
      good_reciprocal inputRes s = (Except.error e, s)) := by
  refine ⟨?_, ?_, ?_⟩
  · intro line e hin hparse
    subst hin
    simp [good_reciprocal, hparse, int_of_string_error_ty line e hparse]
  · intro line hin hparse
    subst hin
    simp [good_reciprocal, hparse, pyDiv, raiseExc, PyExc.ty]
  · intro e hin hty
    subst hin
    simp [good_reciprocal, hty]

/-- Witness for C8: a non-numeric line, the line "0", and a propagating
`EOFError` from the `input()` call. -/
theorem good_reciprocal_catches_specific_witness :
    good_reciprocal (Except.ok "foo") (St.mk [] [] []) =
      (Except.ok Value.vnone, printLn (St.mk [] [] []) "Invalid input!") ∧
    good_reciprocal (Except.ok "0") (St.mk [] [] []) =
      (Except.ok Value.vnone, printLn (St.mk [] [] []) "Cannot divide by 0!") ∧
    good_reciprocal
        (Except.error (raiseExc ExcType.eofError "EOF when reading a line"))
        (St.mk [] [] []) =
      (Except.error (raiseExc ExcType.eofError "EOF when reading a line"),
        St.mk [] [] []) :=
  ⟨(good_reciprocal_catches_specific (Except.ok "foo") (St.mk [] [] [])).1
      "foo" (raiseExc ExcType.valueError
        ("invalid literal for int with base 10: " ++ "foo")) rfl rfl,
   (good_reciprocal_catches_specific (Except.ok "0") (St.mk [] [] [])).2.1
      "0" rfl rfl,
   (good_reciprocal_catches_specific
      (Except.error (raiseExc ExcType.eofError "EOF when reading a line"))
      (St.mk [] [] [])).2.2
      (raiseExc ExcType.eofError "EOF when reading a line") rfl (by decide)⟩

end PyTut
